import Mathlib

/-!
# Verification of the microservice autoscaler (`src/autoscaler.py`)

Shallow embedding of the scaling decision algorithm and its I/O contracts.
Python floats are modelled as exact rationals (`ℚ`), replica counts as
integers (`ℤ`).  The external collaborators (Prometheus, the Kubernetes
API) are modelled by passing their observable outcomes as explicit inputs.
-/

namespace Autoscaler

/-- The autoscaler's configuration, loaded once at startup
(`MicroserviceAutoscaler.__init__` plus the `MAX_REPLICAS` value that
`scale_deployment` reads from the environment). -/
structure Policy where
  latency_threshold_ms : ℚ
  cpu_threshold : ℚ
  rps_threshold : ℚ
  scale_out_factor : ℚ
  scale_in_factor : ℚ
  min_replicas : ℤ
  max_replicas : ℤ
  deriving Repr, DecidableEq

/-- One metrics snapshot, as returned by `get_metrics_from_prometheus`. -/
structure MetricsSnapshot where
  latency_ms : ℚ
  cpu_fraction : ℚ
  rps : ℚ
  deriving Repr, DecidableEq

/-- The decision engine's output: which branch of `adjust_replicas` fired,
carrying the replica count that branch passes to `scale_deployment`. -/
inductive ScalingDecision where
  | ScaleOut (n : ℤ)
  | ScaleIn (n : ℤ)
  | NoChange
  deriving Repr, DecidableEq

/-- The scale-out guard of `adjust_replicas` (lines 100-102):
`latency > latency_threshold_ms or cpu > cpu_threshold or rps > rps_threshold`. -/
def scaleOutCond (m : MetricsSnapshot) (p : Policy) : Prop :=
  m.latency_ms > p.latency_threshold_ms ∨ m.cpu_fraction > p.cpu_threshold ∨
    m.rps > p.rps_threshold

instance (m : MetricsSnapshot) (p : Policy) : Decidable (scaleOutCond m p) := by
  unfold scaleOutCond; infer_instance

/-- The scale-in guard of `adjust_replicas` (lines 108-109):
`latency < 0.69 * latency_threshold_ms and cpu < 0.69 * cpu_threshold`. -/
def scaleInCond (m : MetricsSnapshot) (p : Policy) : Prop :=
  m.latency_ms < (69 / 100 : ℚ) * p.latency_threshold_ms ∧
    m.cpu_fraction < (69 / 100 : ℚ) * p.cpu_threshold

instance (m : MetricsSnapshot) (p : Policy) : Decidable (scaleInCond m p) := by
  unfold scaleInCond; infer_instance

/-- The raw scale-out candidate (line 104):
`math.ceil(current_replicas * (1 + scale_out_factor))`. -/
def scaleOutCandidate (cur : ℤ) (p : Policy) : ℤ :=
  ⌈(cur : ℚ) * (1 + p.scale_out_factor)⌉

/-- The raw scale-in candidate (line 111, before the `max` with
`min_replicas`): `math.floor(current_replicas * (1 - scale_in_factor))`. -/
def scaleInCandidate (cur : ℤ) (p : Policy) : ℤ :=
  ⌊(cur : ℚ) * (1 - p.scale_in_factor)⌋

/-- The decision part of `adjust_replicas` (lines 100-116): which branch
fires and which replica count it hands to `scale_deployment`.  Mirrors the
source exactly: the scale-out branch passes the ceiling candidate
unmodified; the scale-in branch passes
`max(min_replicas, math.floor(current_replicas * (1 - scale_in_factor)))`. -/
def adjust_replicas (m : MetricsSnapshot) (cur : ℤ) (p : Policy) :
    ScalingDecision :=
  if scaleOutCond m p then
    .ScaleOut (scaleOutCandidate cur p)
  else if scaleInCond m p then
    .ScaleIn (max p.min_replicas (scaleInCandidate cur p))
  else
    .NoChange

/-- The replica count `scale_deployment` (lines 61-89) actually writes to
the deployment when the read and patch succeed:
`replicas = max(min_replicas, replicas); replicas = min(MAX_REPLICAS, replicas)`. -/
def scale_deployment (p : Policy) (replicas : ℤ) : ℤ :=
  min p.max_replicas (max p.min_replicas replicas)

/-- The replica count in effect after one full `adjust_replicas` cycle:
the value `scale_deployment` writes on a scale-out or scale-in decision,
or the unchanged current count when no branch fires. -/
def appliedReplicas (m : MetricsSnapshot) (cur : ℤ) (p : Policy) : ℤ :=
  match adjust_replicas m cur p with
  | .ScaleOut n => scale_deployment p n
  | .ScaleIn n => scale_deployment p n
  | .NoChange => cur

/-- Outcome of one `prom.custom_query` call as observed by
`get_metrics_from_prometheus`: the call raised, returned an empty result
list, or returned a value. -/
inductive QueryResult where
  | err
  | empty
  | value (v : ℚ)
  deriving Repr, DecidableEq

/-- The per-metric extraction `float(result[0]['value'][1]) if result else 0`:
an empty result yields `0` for that metric. -/
def QueryResult.toVal : QueryResult → ℚ
  | .err => 0
  | .empty => 0
  | .value v => v

/-- `get_metrics_from_prometheus` (lines 25-47), with the three query
outcomes passed explicitly.  Any raised exception — from whichever of the
three queries — is caught by the surrounding `try`/`except` and the whole
snapshot becomes `(0, 0, 0)`; otherwise each metric is its query's value,
with an empty result yielding `0` for that metric only.  The function is
total: it never propagates a failure. -/
def get_metrics_from_prometheus (ql qc qr : QueryResult) : ℚ × ℚ × ℚ :=
  if ql = .err ∨ qc = .err ∨ qr = .err then (0, 0, 0)
  else (ql.toVal, qc.toVal, qr.toVal)

/-- `get_current_replicas` (lines 49-59), with the orchestration read's
outcome passed explicitly: a raised exception, or a deployment whose
`status.replicas` is `None` or an integer.  The source returns
`deployment.status.replicas if deployment.status.replicas else 0`, so a
falsy (zero) value also takes the `else 0` arm. -/
def get_current_replicas (r : Except Unit (Option ℤ)) : ℤ :=
  match r with
  | .error _ => 0
  | .ok none => 0
  | .ok (some n) => if n = 0 then 0 else n

/-- The all-zero metrics snapshot. -/
def zeroMetrics : MetricsSnapshot := ⟨0, 0, 0⟩

/-- The direction of a decision: `1` for scale-out, `-1` for scale-in,
`0` for no change.  Used to express that the engine never reverses
direction on unchanged metrics. -/
def ScalingDecision.direction : ScalingDecision → ℤ
  | .ScaleOut _ => 1
  | .ScaleIn _ => -1
  | .NoChange => 0

/-- The reference configuration (spec §6 defaults): thresholds 300 ms /
0.7 / 200 rps, factors 0.2 / 0.15, bounds [2, 50]. -/
def samplePolicy : Policy := ⟨300, 7/10, 200, 2/10, 15/100, 2, 50⟩

-- sanity checks against the spec's end-to-end scenarios (§8)
example : adjust_replicas ⟨500, 1/2, 100⟩ 5 samplePolicy = .ScaleOut 6 := by
  norm_num [adjust_replicas, scaleOutCond, scaleInCond, scaleOutCandidate, samplePolicy]

example : adjust_replicas ⟨100, 3/10, 50⟩ 10 samplePolicy = .ScaleIn 8 := by
  norm_num [adjust_replicas, scaleOutCond, scaleInCond, scaleInCandidate, samplePolicy]

example : adjust_replicas ⟨250, 6/10, 150⟩ 5 samplePolicy = .NoChange := by
  norm_num [adjust_replicas, scaleOutCond, scaleInCond, samplePolicy]

/-- The written replica count is at least `min_replicas` whenever the
policy bounds are consistent. -/
lemma scale_deployment_ge_min (p : Policy) (r : ℤ)
    (h : p.min_replicas ≤ p.max_replicas) :
    p.min_replicas ≤ scale_deployment p r :=
  le_min h (le_max_left _ _)

/-- The written replica count never exceeds `max_replicas`. -/
lemma scale_deployment_le_max (p : Policy) (r : ℤ) :
    scale_deployment p r ≤ p.max_replicas :=
  min_le_left _ _

/-- C1: the decision engine evaluates its branches in the source's exact
order, first match winning: a threshold breach on latency, CPU or rps
yields a scale-out whose candidate is the ceiling of
`current_replicas * (1 + scale_out_factor)`; otherwise, metrics below
0.69 of the latency and CPU thresholds yield a scale-in whose candidate
is the floor of `current_replicas * (1 - scale_in_factor)` (carried
clamped from below by `min_replicas`, the decision-time part of
clamping); otherwise the decision is NoChange. -/
theorem C1_branch_order (m : MetricsSnapshot) (cur : ℤ) (p : Policy) :
    ((m.latency_ms > p.latency_threshold_ms ∨ m.cpu_fraction > p.cpu_threshold ∨
        m.rps > p.rps_threshold) →
      adjust_replicas m cur p = .ScaleOut (scaleOutCandidate cur p)) ∧
    (¬(m.latency_ms > p.latency_threshold_ms ∨ m.cpu_fraction > p.cpu_threshold ∨
        m.rps > p.rps_threshold) →
      (m.latency_ms < (69/100 : ℚ) * p.latency_threshold_ms ∧
        m.cpu_fraction < (69/100 : ℚ) * p.cpu_threshold) →
      adjust_replicas m cur p = .ScaleIn (max p.min_replicas (scaleInCandidate cur p))) ∧
    (¬(m.latency_ms > p.latency_threshold_ms ∨ m.cpu_fraction > p.cpu_threshold ∨
        m.rps > p.rps_threshold) →
      ¬(m.latency_ms < (69/100 : ℚ) * p.latency_threshold_ms ∧
        m.cpu_fraction < (69/100 : ℚ) * p.cpu_threshold) →
      adjust_replicas m cur p = .NoChange) := by
  refine ⟨fun h => ?_, fun h1 h2 => ?_, fun h1 h2 => ?_⟩
  · rw [adjust_replicas, if_pos (show scaleOutCond m p from h)]
  · rw [adjust_replicas, if_neg (show ¬ scaleOutCond m p from h1),
      if_pos (show scaleInCond m p from h2)]
  · rw [adjust_replicas, if_neg (show ¬ scaleOutCond m p from h1),
      if_neg (show ¬ scaleInCond m p from h2)]

/-- C1 witness: the three branches at the spec's end-to-end scenarios. -/
theorem C1_branch_order_witness :
    adjust_replicas ⟨500, 1/2, 100⟩ 5 samplePolicy = .ScaleOut (scaleOutCandidate 5 samplePolicy) ∧
    adjust_replicas ⟨100, 3/10, 50⟩ 10 samplePolicy =
      .ScaleIn (max samplePolicy.min_replicas (scaleInCandidate 10 samplePolicy)) ∧
    adjust_replicas ⟨250, 6/10, 150⟩ 5 samplePolicy = .NoChange :=
  ⟨(C1_branch_order ⟨500, 1/2, 100⟩ 5 samplePolicy).1 (by norm_num [samplePolicy]),
   (C1_branch_order ⟨100, 3/10, 50⟩ 10 samplePolicy).2.1 (by norm_num [samplePolicy])
     (by norm_num [samplePolicy]),
   (C1_branch_order ⟨250, 6/10, 150⟩ 5 samplePolicy).2.2 (by norm_num [samplePolicy])
     (by norm_num [samplePolicy])⟩

/-- C2: for every candidate handed to the actuator and every policy with
`min_replicas ≤ max_replicas`, the replica count `scale_deployment`
writes lies in `[min_replicas, max_replicas]`, however extreme the
candidate. -/
theorem C2_actuator_clamps (p : Policy) (r : ℤ)
    (h : p.min_replicas ≤ p.max_replicas) :
    p.min_replicas ≤ scale_deployment p r ∧ scale_deployment p r ≤ p.max_replicas :=
  ⟨scale_deployment_ge_min p r h, scale_deployment_le_max p r⟩

/-- C2 witness: a negative candidate and a huge candidate both land in
the reference bounds [2, 50]. -/
theorem C2_actuator_clamps_witness :
    (samplePolicy.min_replicas ≤ scale_deployment samplePolicy (-100) ∧
      scale_deployment samplePolicy (-100) ≤ samplePolicy.max_replicas) ∧
    (samplePolicy.min_replicas ≤ scale_deployment samplePolicy 100000 ∧
      scale_deployment samplePolicy 100000 ≤ samplePolicy.max_replicas) :=
  ⟨C2_actuator_clamps samplePolicy (-100) (by norm_num [samplePolicy]),
   C2_actuator_clamps samplePolicy 100000 (by norm_num [samplePolicy])⟩

/-- C3: with all-zero metrics and positive thresholds, the decision is
never a scale-out: it is NoChange or a scale-in whose carried target is
at least `min_replicas`. -/
theorem C3_zero_metrics_safe (cur : ℤ) (p : Policy)
    (hcur : 0 ≤ cur)
    (hl : 0 < p.latency_threshold_ms) (hc : 0 < p.cpu_threshold)
    (hr : 0 < p.rps_threshold) :
    (∀ n, adjust_replicas zeroMetrics cur p ≠ .ScaleOut n) ∧
    (adjust_replicas zeroMetrics cur p = .NoChange ∨
      ∃ t, adjust_replicas zeroMetrics cur p = .ScaleIn t ∧ p.min_replicas ≤ t) := by
  have hns : ¬ scaleOutCond zeroMetrics p := by
    simp only [scaleOutCond, zeroMetrics]
    push_neg
    exact ⟨hl.le, hc.le, hr.le⟩
  have hsi : scaleInCond zeroMetrics p := by
    constructor
    · exact mul_pos (by norm_num) hl
    · exact mul_pos (by norm_num) hc
  have heq : adjust_replicas zeroMetrics cur p =
      .ScaleIn (max p.min_replicas (scaleInCandidate cur p)) := by
    rw [adjust_replicas, if_neg hns, if_pos hsi]
  constructor
  · intro n
    rw [heq]
    simp
  · exact Or.inr ⟨_, heq, le_max_left _ _⟩

/-- C3 witness: zero metrics at 5 replicas under the reference policy. -/
theorem C3_zero_metrics_safe_witness :
    (∀ n, adjust_replicas zeroMetrics 5 samplePolicy ≠ .ScaleOut n) ∧
    (adjust_replicas zeroMetrics 5 samplePolicy = .NoChange ∨
      ∃ t, adjust_replicas zeroMetrics 5 samplePolicy = .ScaleIn t ∧
        samplePolicy.min_replicas ≤ t) :=
  C3_zero_metrics_safe 5 samplePolicy (by norm_num) (by norm_num [samplePolicy])
    (by norm_num [samplePolicy]) (by norm_num [samplePolicy])

/-- C4: hysteresis dead zone — when every monitored dimension sits
strictly between 0.69 times its threshold and the threshold itself, the
decision is NoChange, for every replica count and policy. -/
theorem C4_dead_zone (m : MetricsSnapshot) (cur : ℤ) (p : Policy)
    (hl1 : (69/100 : ℚ) * p.latency_threshold_ms < m.latency_ms)
    (hl2 : m.latency_ms < p.latency_threshold_ms)
    (hc1 : (69/100 : ℚ) * p.cpu_threshold < m.cpu_fraction)
    (hc2 : m.cpu_fraction < p.cpu_threshold)
    (hr1 : (69/100 : ℚ) * p.rps_threshold < m.rps)
    (hr2 : m.rps < p.rps_threshold) :
    adjust_replicas m cur p = .NoChange := by
  have hns : ¬ scaleOutCond m p := by
    simp only [scaleOutCond]
    push_neg
    exact ⟨hl2.le, hc2.le, hr2.le⟩
  have hnsi : ¬ scaleInCond m p := by
    rintro ⟨h1, -⟩
    exact absurd h1 (not_lt.mpr hl1.le)
  rw [adjust_replicas, if_neg hns, if_neg hnsi]

/-- C4 witness: the spec's dead-zone scenario (250 ms, 0.6 CPU, 150 rps
against thresholds 300 / 0.7 / 200). -/
theorem C4_dead_zone_witness :
    adjust_replicas ⟨250, 6/10, 150⟩ 5 samplePolicy = .NoChange :=
  C4_dead_zone ⟨250, 6/10, 150⟩ 5 samplePolicy (by norm_num [samplePolicy])
    (by norm_num [samplePolicy]) (by norm_num [samplePolicy])
    (by norm_num [samplePolicy]) (by norm_num [samplePolicy])
    (by norm_num [samplePolicy])

/-- C5 counterexample: under the reference policy, a persisting latency
breach (500 ms against a 300 ms threshold) scales out from 5 to 6, and a
second evaluation with identical metrics at the now-applied count 6 is a
further scale-out, not NoChange. -/
theorem C5_second_call_not_NoChange :
    adjust_replicas ⟨500, 1/2, 100⟩
        (appliedReplicas ⟨500, 1/2, 100⟩ 5 samplePolicy) samplePolicy ≠
      .NoChange := by
  norm_num [appliedReplicas, adjust_replicas, scaleOutCond, scaleInCond,
    scaleOutCandidate, scale_deployment, samplePolicy]
  exact fun hcontra => ScalingDecision.noConfusion hcontra

/-- C5 (amended): with identical metrics, the second evaluation takes the
same branch as the first — the engine's guards depend only on the metrics
and the policy, never on the replica count, so a decide-apply-decide cycle
never reverses direction (the anti-flapping guarantee); it is NoChange
exactly when the first call already was. -/
theorem C5_direction_stable (m : MetricsSnapshot) (cur : ℤ) (p : Policy) :
    (adjust_replicas m (appliedReplicas m cur p) p).direction =
      (adjust_replicas m cur p).direction := by
  unfold adjust_replicas
  split_ifs <;> rfl

/-- C6 counterexample: a latency breach with 100 current replicas under
the reference bounds [2, 50] is scaled down to 50 — the clamped target is
strictly below the current count when the fleet already exceeds
`max_replicas`. -/
theorem C6_breach_can_shrink :
    (⟨500, 1/2, 100⟩ : MetricsSnapshot).latency_ms >
      samplePolicy.latency_threshold_ms ∧
    appliedReplicas ⟨500, 1/2, 100⟩ 100 samplePolicy < 100 := by
  constructor
  · norm_num [samplePolicy]
  · norm_num [appliedReplicas, adjust_replicas, scaleOutCond, scaleInCond,
      scaleOutCandidate, scale_deployment, samplePolicy]

/-- C6 (amended): monotonic scale-out holds on the policy's operating
range — for a latency breach, a nonnegative scale-out factor and
`0 ≤ current_replicas ≤ max_replicas`, the clamped target is at least
the current count. -/
theorem C6_monotone_scale_out (m : MetricsSnapshot) (cur : ℤ) (p : Policy)
    (hbreach : m.latency_ms > p.latency_threshold_ms)
    (hcur0 : 0 ≤ cur) (hcurmax : cur ≤ p.max_replicas)
    (hf : 0 ≤ p.scale_out_factor) :
    cur ≤ appliedReplicas m cur p := by
  have hout : scaleOutCond m p := Or.inl hbreach
  have heq : adjust_replicas m cur p = .ScaleOut (scaleOutCandidate cur p) := by
    rw [adjust_replicas, if_pos hout]
  have hcand : cur ≤ scaleOutCandidate cur p := by
    have h1 : (cur : ℚ) ≤ (cur : ℚ) * (1 + p.scale_out_factor) :=
      le_mul_of_one_le_right (by exact_mod_cast hcur0) (by linarith)
    have h2 : ((cur : ℚ)) ≤ (⌈(cur : ℚ) * (1 + p.scale_out_factor)⌉ : ℚ) :=
      le_trans h1 (Int.le_ceil _)
    exact_mod_cast h2
  simp only [appliedReplicas, heq, scale_deployment]
  exact le_min hcurmax (le_trans hcand (le_max_right _ _))

/-- C6 witness: the spec's scale-out scenario, 5 replicas growing to 6. -/
theorem C6_monotone_scale_out_witness :
    (5 : ℤ) ≤ appliedReplicas ⟨500, 1/2, 100⟩ 5 samplePolicy :=
  C6_monotone_scale_out ⟨500, 1/2, 100⟩ 5 samplePolicy
    (by norm_num [samplePolicy]) (by norm_num) (by norm_num [samplePolicy])
    (by norm_num [samplePolicy])

/-- C7 counterexample: at decision time the scale-out branch passes its
candidate unclamped — with 100 current replicas under the reference
bounds [2, 50], the decision carries 120, far above `max_replicas`. -/
theorem C7_decision_not_clamped :
    adjust_replicas ⟨500, 1/2, 100⟩ 100 samplePolicy = .ScaleOut 120 ∧
    ¬(120 ≤ samplePolicy.max_replicas) := by
  constructor
  · norm_num [adjust_replicas, scaleOutCond, scaleInCond, scaleOutCandidate,
      samplePolicy]
  · norm_num [samplePolicy]

/-- C7 (amended): decision-time clamping is only partial — the scale-out
branch carries its raw ceiling candidate, the scale-in branch carries its
floor candidate clamped from below by `min_replicas`; the full clamp to
`[min_replicas, max_replicas]` happens at actuation time, where either
carried value lands inside the bounds. -/
theorem C7_clamping_split (m : MetricsSnapshot) (cur : ℤ) (p : Policy)
    (h : p.min_replicas ≤ p.max_replicas) :
    (adjust_replicas m cur p = .ScaleOut (scaleOutCandidate cur p) ∨
      adjust_replicas m cur p = .ScaleIn (max p.min_replicas (scaleInCandidate cur p)) ∨
      adjust_replicas m cur p = .NoChange) ∧
    p.min_replicas ≤ scale_deployment p (scaleOutCandidate cur p) ∧
    scale_deployment p (scaleOutCandidate cur p) ≤ p.max_replicas ∧
    p.min_replicas ≤
      scale_deployment p (max p.min_replicas (scaleInCandidate cur p)) ∧
    scale_deployment p (max p.min_replicas (scaleInCandidate cur p)) ≤
      p.max_replicas := by
  refine ⟨?_, scale_deployment_ge_min p _ h, scale_deployment_le_max p _,
    scale_deployment_ge_min p _ h, scale_deployment_le_max p _⟩
  unfold adjust_replicas
  split_ifs with h1 h2
  · exact Or.inl rfl
  · exact Or.inr (Or.inl rfl)
  · exact Or.inr (Or.inr rfl)

/-- C7 witness: the clamping split at the overgrown-fleet input. -/
theorem C7_clamping_split_witness :
    (adjust_replicas ⟨500, 1/2, 100⟩ 100 samplePolicy =
        .ScaleOut (scaleOutCandidate 100 samplePolicy) ∨
      adjust_replicas ⟨500, 1/2, 100⟩ 100 samplePolicy =
        .ScaleIn (max samplePolicy.min_replicas (scaleInCandidate 100 samplePolicy)) ∨
      adjust_replicas ⟨500, 1/2, 100⟩ 100 samplePolicy = .NoChange) ∧
    samplePolicy.min_replicas ≤
      scale_deployment samplePolicy (scaleOutCandidate 100 samplePolicy) ∧
    scale_deployment samplePolicy (scaleOutCandidate 100 samplePolicy) ≤
      samplePolicy.max_replicas ∧
    samplePolicy.min_replicas ≤
      scale_deployment samplePolicy
        (max samplePolicy.min_replicas (scaleInCandidate 100 samplePolicy)) ∧
    scale_deployment samplePolicy
        (max samplePolicy.min_replicas (scaleInCandidate 100 samplePolicy)) ≤
      samplePolicy.max_replicas :=
  C7_clamping_split ⟨500, 1/2, 100⟩ 100 samplePolicy (by norm_num [samplePolicy])

/-- C8 counterexample: an empty latency query combined with successful
CPU and rps queries yields `(0, cpu, rps)`, not the all-zero snapshot —
per-metric zeroing, not whole-snapshot zeroing. -/
theorem C8_empty_not_all_zero :
    get_metrics_from_prometheus .empty (.value 2) (.value 100) = (0, 2, 100) ∧
    ((0 : ℚ), (2 : ℚ), (100 : ℚ)) ≠ ((0 : ℚ), (0 : ℚ), (0 : ℚ)) := by
  constructor
  · rfl
  · norm_num

/-- C8 (amended): a raised exception from any of the three backend
queries makes the whole snapshot `(0, 0, 0)` and never propagates (the
model is a total function); an empty query result yields `0` for that
metric only, the other metrics keeping their retrieved values. -/
theorem C8_failure_semantics (ql qc qr : QueryResult) :
    ((ql = .err ∨ qc = .err ∨ qr = .err) →
      get_metrics_from_prometheus ql qc qr = (0, 0, 0)) ∧
    (¬(ql = .err ∨ qc = .err ∨ qr = .err) →
      get_metrics_from_prometheus ql qc qr = (ql.toVal, qc.toVal, qr.toVal)) ∧
    QueryResult.toVal .empty = 0 := by
  refine ⟨fun h => ?_, fun h => ?_, rfl⟩
  · rw [get_metrics_from_prometheus, if_pos h]
  · rw [get_metrics_from_prometheus, if_neg h]

/-- C8 witness: a raised CPU query zeroes the whole snapshot even though
the latency query had returned a value. -/
theorem C8_failure_semantics_witness :
    get_metrics_from_prometheus (.value 500) .err (.value 100) = (0, 0, 0) :=
  (C8_failure_semantics (.value 500) .err (.value 100)).1 (Or.inr (Or.inl rfl))

/-- C9: the current-replicas read returns 0 alike on an orchestration
read error, on a deployment whose `status.replicas` is unset (`None`),
and on an explicit zero — the three inputs are indistinguishable at the
decision engine's input. -/
theorem C9_replicas_zero_cases :
    get_current_replicas (.error ()) = 0 ∧
    get_current_replicas (.ok none) = 0 ∧
    get_current_replicas (.ok (some 0)) = 0 :=
  ⟨rfl, rfl, rfl⟩

/-- C10: a scale-in decision can grow the fleet — whenever the scale-in
branch fires with fewer current replicas than `min_replicas` (factor in
[0, 1], nonnegative floor), the carried target is exactly `min_replicas`,
strictly above the current count. -/
theorem C10_scale_in_can_grow (m : MetricsSnapshot) (cur : ℤ) (p : Policy)
    (hno : ¬ scaleOutCond m p) (hin : scaleInCond m p)
    (hcur : cur < p.min_replicas) (hmin : 0 ≤ p.min_replicas)
    (hf0 : 0 ≤ p.scale_in_factor) (hf1 : p.scale_in_factor ≤ 1) :
    adjust_replicas m cur p = .ScaleIn p.min_replicas ∧ cur < p.min_replicas := by
  have hfloor : scaleInCandidate cur p ≤ p.min_replicas := by
    rcases le_or_lt 0 cur with hc | hc
    · have h1 : (cur : ℚ) * (1 - p.scale_in_factor) ≤ (cur : ℚ) :=
        mul_le_of_le_one_right (by exact_mod_cast hc) (by linarith)
      have h2 : scaleInCandidate cur p ≤ cur := by
        have h3 := Int.floor_mono h1
        rwa [Int.floor_intCast] at h3
      exact le_trans h2 hcur.le
    · have h1 : (cur : ℚ) * (1 - p.scale_in_factor) ≤ 0 := by
        have hcq : (cur : ℚ) ≤ 0 := by exact_mod_cast hc.le
        nlinarith
      have h2 : scaleInCandidate cur p ≤ 0 := by
        have := Int.floor_mono h1
        rwa [Int.floor_zero] at this
      exact le_trans h2 hmin
  have heq : adjust_replicas m cur p =
      .ScaleIn (max p.min_replicas (scaleInCandidate cur p)) := by
    rw [adjust_replicas, if_neg hno, if_pos hin]
  refine ⟨?_, hcur⟩
  rw [heq, max_eq_left hfloor]

/-- C10 witness: one current replica, calm metrics, reference policy —
the scale-in branch raises the fleet to `min_replicas = 2`. -/
theorem C10_scale_in_can_grow_witness :
    adjust_replicas ⟨100, 3/10, 50⟩ 1 samplePolicy =
      .ScaleIn samplePolicy.min_replicas ∧
    (1 : ℤ) < samplePolicy.min_replicas :=
  C10_scale_in_can_grow ⟨100, 3/10, 50⟩ 1 samplePolicy
    (by norm_num [scaleOutCond, samplePolicy])
    (by constructor <;> norm_num [samplePolicy])
    (by norm_num [samplePolicy]) (by norm_num [samplePolicy])
    (by norm_num [samplePolicy]) (by norm_num [samplePolicy])

end Autoscaler
